import Mathlib

/-!
Verification of the bingo rules engine (src/core/rules.ts and src/core/models.ts).

The data model and every operation below are shallow embeddings of the
TypeScript source: cells and cards are structures, mark vectors are lists of
booleans, rule modes are the strings the source switches on, and optional
result fields become `Option`.  JS array indexing out of bounds yields a falsy
`undefined`, embedded as `List.getD _ _ false`.  `Math.floor ((num - 1) / 15)`
on a non-negative numerator is Lean's integer division `/` (euclidean, which
floors for a positive divisor).
-/

namespace Bingo

/-- A cell of the 5×5 card (models.ts `Cell`); `number` is optional. -/
structure Cell where
  index : Nat
  row : Nat
  col : Nat
  number : Option Int
  isFree : Bool
deriving DecidableEq, Repr

/-- A bingo card (models.ts `Card`). -/
structure Card where
  id : String
  name : String
  createdAt : Int
  cells : List Cell
  hasFreeCenter : Bool
deriving DecidableEq, Repr

/-- The twelve scoring-line identifiers (models.ts `LineId`). -/
inductive LineId where
  | row0 | row1 | row2 | row3 | row4
  | col0 | col1 | col2 | col3 | col4
  | diagMain | diagAnti
deriving DecidableEq, Repr

/-- models.ts `LINE_INDICES`: each line's five cell indices. -/
def LINE_INDICES : LineId → List Nat
  | .row0 => [0, 1, 2, 3, 4]
  | .row1 => [5, 6, 7, 8, 9]
  | .row2 => [10, 11, 12, 13, 14]
  | .row3 => [15, 16, 17, 18, 19]
  | .row4 => [20, 21, 22, 23, 24]
  | .col0 => [0, 5, 10, 15, 20]
  | .col1 => [1, 6, 11, 16, 21]
  | .col2 => [2, 7, 12, 17, 22]
  | .col3 => [3, 8, 13, 18, 23]
  | .col4 => [4, 9, 14, 19, 24]
  | .diagMain => [0, 6, 12, 18, 24]
  | .diagAnti => [4, 8, 12, 16, 20]

/-- The key order of the `LINE_INDICES` record literal, which is the order
`Object.keys` yields in rules.ts `getCompletedLines`. -/
def allLines : List LineId :=
  [.row0, .row1, .row2, .row3, .row4,
   .col0, .col1, .col2, .col3, .col4,
   .diagMain, .diagAnti]

/-- models.ts `PERIMETER_INDICES`: the 16 outer-ring cell indices. -/
def PERIMETER_INDICES : List Nat :=
  [0, 1, 2, 3, 4,
   20, 21, 22, 23, 24,
   5, 10, 15,
   9, 14, 19]

/-- models.ts `COLUMN_RANGES`: record from column index to its number range
and letter; lookup of a missing key gives `undefined`, embedded as `none`. -/
def COLUMN_RANGES (col : Int) : Option (Int × Int × String) :=
  if col = 0 then some (1, 15, "B")
  else if col = 1 then some (16, 30, "I")
  else if col = 2 then some (31, 45, "N")
  else if col = 3 then some (46, 60, "G")
  else if col = 4 then some (61, 75, "O")
  else none

/-- models.ts `createCell`: a free cell (index 12) never carries a number. -/
def createCell (index : Nat) (number : Option Int) : Cell :=
  { index := index
    row := index / 5
    col := index % 5
    number := if index = 12 then none else number
    isFree := index = 12 }

/-- models.ts `createEmptyCard`; `Date.now()` is passed in as `now`. -/
def createEmptyCard (id : String) (name : String) (now : Int) : Card :=
  { id := id
    name := name
    createdAt := now
    cells := (List.range 25).map (fun i => createCell i none)
    hasFreeCenter := true }

/-- models.ts `isValidNumberForColumn`. -/
def isValidNumberForColumn (num : Int) (col : Int) : Bool :=
  match COLUMN_RANGES col with
  | none => false
  | some range => decide (range.1 ≤ num ∧ num ≤ range.2.1)

/-- models.ts `getColumnForNumber`: sentinel -1 outside [1,75]. -/
def getColumnForNumber (num : Int) : Int :=
  if num < 1 ∨ 75 < num then -1
  else (num - 1) / 15

/-- rules.ts `computeMarks`: the FREE center is always marked; otherwise a
cell is marked iff its number is present and among the called numbers
(`Set.has` is membership, embedded as `List.contains`). -/
def computeMarks (card : Card) (calledNumbers : List Int) : List Bool :=
  card.cells.map (fun cell =>
    if cell.isFree then true
    else
      match cell.number with
      | some n => calledNumbers.contains n
      | none => false)

/-- rules.ts `isLineComplete`. -/
def isLineComplete (marks : List Bool) (lineId : LineId) : Bool :=
  (LINE_INDICES lineId).all (fun i => marks.getD i false)

/-- rules.ts `getCompletedLines`. -/
def getCompletedLines (marks : List Bool) : List LineId :=
  allLines.filter (fun lineId => isLineComplete marks lineId)

/-- rules.ts `isBoxComplete`. -/
def isBoxComplete (marks : List Bool) : Bool :=
  PERIMETER_INDICES.all (fun i => marks.getD i false)

/-- rules.ts `isXComplete`. -/
def isXComplete (marks : List Bool) : Bool :=
  isLineComplete marks .diagMain && isLineComplete marks .diagAnti

/-- rules.ts `isBlackout`. -/
def isBlackout (marks : List Bool) : Bool :=
  marks.all (fun m => m)

/-- rules.ts `WinResult`: the three optional fields become `Option`. -/
structure WinResult where
  isWin : Bool
  winType : Option String
  winningLines : Option (List LineId)
  completedLineCount : Option Nat
deriving DecidableEq, Repr

/-- rules.ts `detectWins`.  The rule mode is the string the source switches
on; the trailing branch is the `default` of the switch. -/
def detectWins (card : Card) (marks : List Bool) (ruleMode : String) : WinResult :=
  if ruleMode = "NONE" then
    { isWin := false, winType := none, winningLines := none, completedLineCount := none }
  else
    let completedLines := getCompletedLines marks
    let completedCount := completedLines.length
    if ruleMode = "STANDARD" then
      if 1 ≤ completedCount then
        { isWin := true, winType := some "Standard Bingo",
          winningLines := some completedLines,
          completedLineCount := some completedCount }
      else
        { isWin := false, winType := none, winningLines := none,
          completedLineCount := some 0 }
    else if ruleMode = "DOUBLE" then
      if 2 ≤ completedCount then
        { isWin := true, winType := some "Double Bingo",
          winningLines := some completedLines,
          completedLineCount := some completedCount }
      else
        { isWin := false, winType := none, winningLines := none,
          completedLineCount := some completedCount }
    else if ruleMode = "BOX" then
      if isBoxComplete marks then
        { isWin := true, winType := some "Box Bingo",
          winningLines := none,
          completedLineCount := some completedCount }
      else
        { isWin := false, winType := none, winningLines := none,
          completedLineCount := some completedCount }
    else if ruleMode = "X" then
      if isXComplete marks then
        { isWin := true, winType := some "X Bingo",
          winningLines := some [.diagMain, .diagAnti],
          completedLineCount := some completedCount }
      else
        { isWin := false, winType := none, winningLines := none,
          completedLineCount := some completedCount }
    else if ruleMode = "BLACKOUT" then
      if isBlackout marks then
        { isWin := true, winType := some "Blackout",
          winningLines := none,
          completedLineCount := some completedCount }
      else
        { isWin := false, winType := none, winningLines := none,
          completedLineCount := some completedCount }
    else
      { isWin := false, winType := none, winningLines := none, completedLineCount := none }

/-- A placeholder cell used only as the `getD` default in statements. -/
def defaultCell : Cell :=
  { index := 0, row := 0, col := 0, number := none, isFree := false }

/-- A concrete empty card used by witnesses. -/
def sampleCard : Card := createEmptyCard "card-1" "Sample" 0

/-! ### Shared lemmas -/

lemma getD_map_eq (f : Cell → Bool) (l : List Cell) (i : Nat) (h : i < l.length) :
    (l.map f).getD i false = f (l.getD i defaultCell) := by
  rw [List.getD_eq_getElem?_getD, List.getD_eq_getElem?_getD, List.getElem?_map,
    List.getElem?_eq_getElem h]
  rfl

lemma mem_allLines (l : LineId) : l ∈ allLines := by
  cases l <;> decide

lemma nodup_allLines : allLines.Nodup := by decide

lemma mem_getCompletedLines (marks : List Bool) (l : LineId) :
    l ∈ getCompletedLines marks ↔ isLineComplete marks l = true := by
  rw [getCompletedLines, List.mem_filter]
  simp [mem_allLines]

lemma detectWins_NONE_eq (card : Card) (marks : List Bool) :
    detectWins card marks "NONE" =
      { isWin := false, winType := none, winningLines := none,
        completedLineCount := none } := rfl

lemma detectWins_STANDARD_eq (card : Card) (marks : List Bool) :
    detectWins card marks "STANDARD" =
      if 1 ≤ (getCompletedLines marks).length then
        { isWin := true, winType := some "Standard Bingo",
          winningLines := some (getCompletedLines marks),
          completedLineCount := some (getCompletedLines marks).length }
      else
        { isWin := false, winType := none, winningLines := none,
          completedLineCount := some 0 } := rfl

lemma detectWins_DOUBLE_eq (card : Card) (marks : List Bool) :
    detectWins card marks "DOUBLE" =
      if 2 ≤ (getCompletedLines marks).length then
        { isWin := true, winType := some "Double Bingo",
          winningLines := some (getCompletedLines marks),
          completedLineCount := some (getCompletedLines marks).length }
      else
        { isWin := false, winType := none, winningLines := none,
          completedLineCount := some (getCompletedLines marks).length } := rfl

lemma detectWins_BOX_eq (card : Card) (marks : List Bool) :
    detectWins card marks "BOX" =
      if isBoxComplete marks then
        { isWin := true, winType := some "Box Bingo", winningLines := none,
          completedLineCount := some (getCompletedLines marks).length }
      else
        { isWin := false, winType := none, winningLines := none,
          completedLineCount := some (getCompletedLines marks).length } := rfl

lemma detectWins_X_eq (card : Card) (marks : List Bool) :
    detectWins card marks "X" =
      if isXComplete marks then
        { isWin := true, winType := some "X Bingo",
          winningLines := some [.diagMain, .diagAnti],
          completedLineCount := some (getCompletedLines marks).length }
      else
        { isWin := false, winType := none, winningLines := none,
          completedLineCount := some (getCompletedLines marks).length } := rfl

lemma detectWins_BLACKOUT_eq (card : Card) (marks : List Bool) :
    detectWins card marks "BLACKOUT" =
      if isBlackout marks then
        { isWin := true, winType := some "Blackout", winningLines := none,
          completedLineCount := some (getCompletedLines marks).length }
      else
        { isWin := false, winType := none, winningLines := none,
          completedLineCount := some (getCompletedLines marks).length } := rfl

/-! ### Claim theorems -/

/-- C1: for every card satisfying the Card invariants needed here (25 cells,
free center at index 12) and every collection of called numbers,
`computeMarks` returns 25 booleans; entry `i` is true iff cell `i` is free or
cell `i` has an assigned number that is a member of the called collection (so
a non-free cell with no assigned number is never marked); and index 12 is
always true. -/
theorem computeMarks_correct (card : Card) (called : List Int)
    (h25 : card.cells.length = 25)
    (hfree : (card.cells.getD 12 defaultCell).isFree = true) :
    (computeMarks card called).length = 25 ∧
    (∀ i, i < 25 →
      ((computeMarks card called).getD i false = true ↔
        ((card.cells.getD i defaultCell).isFree = true ∨
          ∃ n, (card.cells.getD i defaultCell).number = some n ∧
            called.contains n = true))) ∧
    (computeMarks card called).getD 12 false = true := by
  have hmap : ∀ i, i < 25 → (computeMarks card called).getD i false =
      (if (card.cells.getD i defaultCell).isFree then true
       else
         match (card.cells.getD i defaultCell).number with
         | some n => called.contains n
         | none => false) := by
    intro i hi
    rw [computeMarks, getD_map_eq _ _ i (by omega)]
  refine ⟨by simp [computeMarks, h25], ?_, ?_⟩
  · intro i hi
    rw [hmap i hi]
    cases hf : (card.cells.getD i defaultCell).isFree <;>
      cases hn : (card.cells.getD i defaultCell).number <;>
        simp [hf, hn]
  · rw [hmap 12 (by omega), hfree]
    rfl

/-- C1 witness: the hypotheses of `computeMarks_correct` hold at the concrete
empty card, and the theorem applies there. -/
theorem computeMarks_correct_witness :
    sampleCard.cells.length = 25 ∧
    (sampleCard.cells.getD 12 defaultCell).isFree = true ∧
    ((computeMarks sampleCard [7]).length = 25 ∧
      (∀ i, i < 25 →
        ((computeMarks sampleCard [7]).getD i false = true ↔
          ((sampleCard.cells.getD i defaultCell).isFree = true ∨
            ∃ n, (sampleCard.cells.getD i defaultCell).number = some n ∧
              ([7] : List Int).contains n = true))) ∧
      (computeMarks sampleCard [7]).getD 12 false = true) :=
  ⟨by decide, by decide, computeMarks_correct sampleCard [7] (by decide) (by decide)⟩

/-- C2 counterexample: a win under BOX (all 25 cells marked, mode "BOX") has
`completedLineCount` populated (with 12, the full-scan count), not omitted as
the claim states. -/
theorem detectWins_box_win_populates_count :
    (detectWins sampleCard (List.replicate 25 true) "BOX").isWin = true ∧
    (detectWins sampleCard (List.replicate 25 true) "BOX").completedLineCount = some 12 ∧
    (detectWins sampleCard (List.replicate 25 true) "BOX").completedLineCount ≠ none := by
  refine ⟨by decide, by decide, by decide⟩

/-- C2 amended: `completedLineCount` is omitted exactly when the mode is NONE
or unrecognized; in every other case — all losses and all wins under STANDARD,
DOUBLE, BOX, X and BLACKOUT — it is populated with the number of completed
lines from the full 12-line scan. -/
theorem detectWins_completedLineCount (card : Card) (marks : List Bool) (mode : String) :
    (detectWins card marks mode).completedLineCount =
      if mode = "STANDARD" ∨ mode = "DOUBLE" ∨ mode = "BOX" ∨ mode = "X" ∨
          mode = "BLACKOUT" then
        some (getCompletedLines marks).length
      else
        none := by
  by_cases h1 : mode = "STANDARD"
  · subst h1
    rw [if_pos (by decide), detectWins_STANDARD_eq]
    split
    · rfl
    · rename_i h
      show some 0 = some (getCompletedLines marks).length
      simp only [Option.some.injEq]
      omega
  by_cases h2 : mode = "DOUBLE"
  · subst h2
    rw [if_pos (by decide), detectWins_DOUBLE_eq]
    split <;> rfl
  by_cases h3 : mode = "BOX"
  · subst h3
    rw [if_pos (by decide), detectWins_BOX_eq]
    split <;> rfl
  by_cases h4 : mode = "X"
  · subst h4
    rw [if_pos (by decide), detectWins_X_eq]
    split <;> rfl
  by_cases h5 : mode = "BLACKOUT"
  · subst h5
    rw [if_pos (by decide), detectWins_BLACKOUT_eq]
    split <;> rfl
  rw [if_neg (by simp [h1, h2, h3, h4, h5])]
  by_cases h6 : mode = "NONE"
  · subst h6
    rw [detectWins_NONE_eq]
  · simp only [detectWins, h1, h2, h3, h4, h5, h6, if_false]

lemma one_le_completed_iff (marks : List Bool) :
    1 ≤ (getCompletedLines marks).length ↔ ∃ l, isLineComplete marks l = true := by
  constructor
  · intro h
    obtain ⟨l, hl⟩ :=
      @List.exists_mem_of_length_pos _ (getCompletedLines marks) (by omega)
    exact ⟨l, (mem_getCompletedLines marks l).mp hl⟩
  · rintro ⟨l, hl⟩
    have := List.length_pos_of_mem ((mem_getCompletedLines marks l).mpr hl)
    omega

lemma two_le_completed_iff (marks : List Bool) :
    2 ≤ (getCompletedLines marks).length ↔
      ∃ l1 l2 : LineId, l1 ≠ l2 ∧ isLineComplete marks l1 = true ∧
        isLineComplete marks l2 = true := by
  constructor
  · intro h
    have hnd : (getCompletedLines marks).Nodup := List.Nodup.filter _ nodup_allLines
    match hL : getCompletedLines marks with
    | [] => rw [hL] at h; simp at h
    | [a] => rw [hL] at h; simp at h
    | a :: b :: t =>
      rw [hL] at hnd
      have hab : a ≠ b := by
        intro hab
        exact (List.nodup_cons.mp hnd).1 (by rw [hab]; exact List.mem_cons_self b t)
      refine ⟨a, b, hab, ?_, ?_⟩
      · exact (mem_getCompletedLines marks a).mp (hL ▸ List.mem_cons_self a (b :: t))
      · exact (mem_getCompletedLines marks b).mp
          (hL ▸ List.mem_cons_of_mem a (List.mem_cons_self b t))
  · rintro ⟨l1, l2, hne, h1, h2⟩
    have m1 : l1 ∈ getCompletedLines marks := (mem_getCompletedLines marks l1).mpr h1
    have m2 : l2 ∈ getCompletedLines marks := (mem_getCompletedLines marks l2).mpr h2
    obtain ⟨s, t, hst⟩ := List.append_of_mem m1
    rw [hst] at m2 ⊢
    rw [List.length_append, List.length_cons]
    rcases List.mem_append.mp m2 with h | h
    · have := List.length_pos_of_mem h
      omega
    · rcases List.mem_cons.mp h with h | h
      · exact absurd h.symm hne
      · have := List.length_pos_of_mem h
        omega

/-- C3: under STANDARD, `detectWins` wins iff at least one line is complete,
reports all completed lines in `winningLines` on a win and
`completedLineCount = 0` on a loss; under DOUBLE it wins iff at least two
distinct lines are complete, reports all completed lines on a win, and on a
loss reports the actual completed-line count, which is 0 or 1. -/
theorem detectWins_standard_double (card : Card) (marks : List Bool) :
    ((detectWins card marks "STANDARD").isWin = true ↔
      ∃ l, isLineComplete marks l = true) ∧
    ((detectWins card marks "STANDARD").isWin = true →
      (detectWins card marks "STANDARD").winningLines = some (getCompletedLines marks)) ∧
    ((detectWins card marks "STANDARD").isWin = false →
      (detectWins card marks "STANDARD").completedLineCount = some 0) ∧
    ((detectWins card marks "DOUBLE").isWin = true ↔
      ∃ l1 l2 : LineId, l1 ≠ l2 ∧ isLineComplete marks l1 = true ∧
        isLineComplete marks l2 = true) ∧
    ((detectWins card marks "DOUBLE").isWin = true →
      (detectWins card marks "DOUBLE").winningLines = some (getCompletedLines marks)) ∧
    ((detectWins card marks "DOUBLE").isWin = false →
      (detectWins card marks "DOUBLE").completedLineCount =
          some (getCompletedLines marks).length ∧
        (getCompletedLines marks).length ≤ 1) := by
  rw [detectWins_STANDARD_eq, detectWins_DOUBLE_eq]
  refine ⟨?_, ?_, ?_, ?_, ?_, ?_⟩
  · rw [← one_le_completed_iff]
    split <;> rename_i h <;> simp [h]
  · split <;> rename_i h <;> simp
  · split <;> rename_i h <;> simp
  · rw [← two_le_completed_iff]
    split <;> rename_i h <;> simp [h]
  · split <;> rename_i h <;> simp
  · split <;> rename_i h <;> simp
    omega

/-- C4: `isXComplete` is true iff both diagMain ({0,6,12,18,24}) and diagAnti
({4,8,12,16,20}) are fully marked, and `detectWins` under mode X wins exactly
when `isXComplete` holds, with `winningLines` on a win being exactly
`[diagMain, diagAnti]`. -/
theorem isXComplete_correct (card : Card) (marks : List Bool) :
    (isXComplete marks = true ↔
      ((∀ i ∈ ([0, 6, 12, 18, 24] : List Nat), marks.getD i false = true) ∧
        (∀ i ∈ ([4, 8, 12, 16, 20] : List Nat), marks.getD i false = true))) ∧
    ((detectWins card marks "X").isWin = isXComplete marks) ∧
    (isXComplete marks = true →
      (detectWins card marks "X").winningLines = some [.diagMain, .diagAnti]) := by
  refine ⟨?_, ?_, ?_⟩
  · rw [isXComplete, Bool.and_eq_true, isLineComplete, isLineComplete,
      List.all_eq_true, List.all_eq_true]
    rfl
  · rw [detectWins_X_eq]
    split <;> rename_i h <;> simp [h]
  · intro h
    rw [detectWins_X_eq, if_pos h]

/-- C5: `getCompletedLines` returns exactly the lines whose 5 cell indices
are all marked, as a sublist (hence a subsequence, hence deterministic) of
the fixed enumeration row0..row4, col0..col4, diagMain, diagAnti; and it is
monotonic in the mark vector under pointwise implication. -/
theorem getCompletedLines_correct (marks marks2 : List Bool)
    (hmono : ∀ i, marks.getD i false = true → marks2.getD i false = true) :
    (∀ l : LineId, l ∈ getCompletedLines marks ↔
      ∀ i ∈ LINE_INDICES l, marks.getD i false = true) ∧
    (getCompletedLines marks).Sublist allLines ∧
    (∀ l ∈ getCompletedLines marks, l ∈ getCompletedLines marks2) := by
  have hmem : ∀ (m : List Bool) (l : LineId), l ∈ getCompletedLines m ↔
      ∀ i ∈ LINE_INDICES l, m.getD i false = true := by
    intro m l
    rw [mem_getCompletedLines, isLineComplete, List.all_eq_true]
  refine ⟨hmem marks, List.filter_sublist _, ?_⟩
  intro l hl
  exact (hmem marks2 l).mpr (fun i hi => hmono i ((hmem marks l).mp hl i hi))

/-- C5 witness: the pointwise-implication hypothesis holds for the all-true
mark vector against itself, and the theorem applies there. -/
theorem getCompletedLines_correct_witness :
    (∀ i, (List.replicate 25 true).getD i false = true →
      (List.replicate 25 true).getD i false = true) ∧
    ((∀ l : LineId, l ∈ getCompletedLines (List.replicate 25 true) ↔
        ∀ i ∈ LINE_INDICES l, (List.replicate 25 true).getD i false = true) ∧
      (getCompletedLines (List.replicate 25 true)).Sublist allLines ∧
      (∀ l ∈ getCompletedLines (List.replicate 25 true),
        l ∈ getCompletedLines (List.replicate 25 true))) :=
  ⟨fun _ h => h,
    getCompletedLines_correct (List.replicate 25 true) (List.replicate 25 true)
      (fun _ h => h)⟩

/-- C3 witness: `detectWins_standard_double` applied at a concrete card and
mark vector. -/
theorem detectWins_standard_double_witness :
    ((detectWins sampleCard (List.replicate 25 true) "STANDARD").isWin = true ↔
      ∃ l, isLineComplete (List.replicate 25 true) l = true) ∧
    ((detectWins sampleCard (List.replicate 25 true) "STANDARD").isWin = true →
      (detectWins sampleCard (List.replicate 25 true) "STANDARD").winningLines =
        some (getCompletedLines (List.replicate 25 true))) ∧
    ((detectWins sampleCard (List.replicate 25 true) "STANDARD").isWin = false →
      (detectWins sampleCard (List.replicate 25 true) "STANDARD").completedLineCount =
        some 0) ∧
    ((detectWins sampleCard (List.replicate 25 true) "DOUBLE").isWin = true ↔
      ∃ l1 l2 : LineId, l1 ≠ l2 ∧ isLineComplete (List.replicate 25 true) l1 = true ∧
        isLineComplete (List.replicate 25 true) l2 = true) ∧
    ((detectWins sampleCard (List.replicate 25 true) "DOUBLE").isWin = true →
      (detectWins sampleCard (List.replicate 25 true) "DOUBLE").winningLines =
        some (getCompletedLines (List.replicate 25 true))) ∧
    ((detectWins sampleCard (List.replicate 25 true) "DOUBLE").isWin = false →
      (detectWins sampleCard (List.replicate 25 true) "DOUBLE").completedLineCount =
          some (getCompletedLines (List.replicate 25 true)).length ∧
        (getCompletedLines (List.replicate 25 true)).length ≤ 1) :=
  detectWins_standard_double sampleCard (List.replicate 25 true)

/-- C4 witness: `isXComplete_correct` applied at a concrete card and mark
vector. -/
theorem isXComplete_correct_witness :
    (isXComplete (List.replicate 25 true) = true ↔
      ((∀ i ∈ ([0, 6, 12, 18, 24] : List Nat),
          (List.replicate 25 true).getD i false = true) ∧
        (∀ i ∈ ([4, 8, 12, 16, 20] : List Nat),
          (List.replicate 25 true).getD i false = true))) ∧
    ((detectWins sampleCard (List.replicate 25 true) "X").isWin =
      isXComplete (List.replicate 25 true)) ∧
    (isXComplete (List.replicate 25 true) = true →
      (detectWins sampleCard (List.replicate 25 true) "X").winningLines =
        some [.diagMain, .diagAnti]) :=
  isXComplete_correct sampleCard (List.replicate 25 true)

lemma isValidNumberForColumn_iff (num c : Int) (h3 : 0 ≤ c) (h4 : c ≤ 4) :
    isValidNumberForColumn num c = true ↔ 15 * c + 1 ≤ num ∧ num ≤ 15 * c + 15 := by
  interval_cases c <;>
    simp [isValidNumberForColumn, COLUMN_RANGES, decide_eq_true_iff]

lemma getColumnForNumber_eq_iff (num : Int) (h1 : 1 ≤ num) (h2 : num ≤ 75) (c : Int) :
    getColumnForNumber num = c ↔ 15 * c + 1 ≤ num ∧ num ≤ 15 * c + 15 := by
  rw [getColumnForNumber, if_neg (by omega)]
  omega

/-- C6: for numbers in [1,75] and columns 0..4, `getColumnForNumber` inverts
the fixed column-range mapping decided by `isValidNumberForColumn` (column c
admits exactly [15c+1, 15c+15]); outside [1,75] it returns the sentinel -1;
and the concrete spec examples hold. -/
theorem getColumnForNumber_inverse :
    (∀ num : Int, 1 ≤ num → num ≤ 75 → ∀ c : Int, 0 ≤ c → c ≤ 4 →
      (getColumnForNumber num = c ↔ isValidNumberForColumn num c = true)) ∧
    (∀ num c : Int, 0 ≤ c → c ≤ 4 →
      (isValidNumberForColumn num c = true ↔ 15 * c + 1 ≤ num ∧ num ≤ 15 * c + 15)) ∧
    (∀ num : Int, num < 1 ∨ 75 < num → getColumnForNumber num = -1) ∧
    isValidNumberForColumn 15 0 = true ∧
    isValidNumberForColumn 16 0 = false ∧
    getColumnForNumber 61 = 4 := by
  refine ⟨?_, fun num c h3 h4 => isValidNumberForColumn_iff num c h3 h4, ?_, ?_, ?_, ?_⟩
  · intro num h1 h2 c h3 h4
    rw [getColumnForNumber_eq_iff num h1 h2 c, isValidNumberForColumn_iff num c h3 h4]
  · intro num h
    rw [getColumnForNumber, if_pos h]
  · decide
  · decide
  · decide

/-- C6 witness: `getColumnForNumber_inverse` applied at number 20 and
column 1, with all side conditions discharged. -/
theorem getColumnForNumber_inverse_witness :
    ((1 : Int) ≤ 20 ∧ (20 : Int) ≤ 75 ∧ (0 : Int) ≤ 1 ∧ (1 : Int) ≤ 4) ∧
    (getColumnForNumber 20 = 1 ↔ isValidNumberForColumn 20 1 = true) :=
  ⟨by decide,
    getColumnForNumber_inverse.1 20 (by decide) (by decide) 1 (by decide) (by decide)⟩

/-- C7: under mode NONE, and under any unrecognized rule mode value,
`detectWins` returns a non-win result with all optional fields absent; being
a total Lean function, it signals no error on any input. -/
theorem detectWins_defensive (card : Card) (marks : List Bool) (mode : String)
    (h : mode = "NONE" ∨
      (mode ≠ "STANDARD" ∧ mode ≠ "DOUBLE" ∧ mode ≠ "BOX" ∧ mode ≠ "X" ∧
        mode ≠ "BLACKOUT")) :
    detectWins card marks mode =
      { isWin := false, winType := none, winningLines := none,
        completedLineCount := none } := by
  rcases h with h | ⟨h1, h2, h3, h4, h5⟩
  · subst h
    rw [detectWins_NONE_eq]
  · by_cases h6 : mode = "NONE"
    · subst h6
      rw [detectWins_NONE_eq]
    · simp only [detectWins, h1, h2, h3, h4, h5, h6, if_false]

/-- C7 witness: `detectWins_defensive` applied at the unrecognized mode
string "CORNERS". -/
theorem detectWins_defensive_witness :
    (("CORNERS" : String) = "NONE" ∨
      (("CORNERS" : String) ≠ "STANDARD" ∧ ("CORNERS" : String) ≠ "DOUBLE" ∧
        ("CORNERS" : String) ≠ "BOX" ∧ ("CORNERS" : String) ≠ "X" ∧
        ("CORNERS" : String) ≠ "BLACKOUT")) ∧
    detectWins sampleCard [] "CORNERS" =
      { isWin := false, winType := none, winningLines := none,
        completedLineCount := none } :=
  ⟨Or.inr (by decide),
    detectWins_defensive sampleCard [] "CORNERS" (Or.inr (by decide))⟩

/-- C9: `detectWins` never reads its card argument: its verdict is a function
of the mark vector and rule mode alone. -/
theorem detectWins_ignores_card (c1 c2 : Card) (marks : List Bool) (mode : String) :
    detectWins c1 marks mode = detectWins c2 marks mode := rfl

/-- C8: for a card whose assigned numbers all lie in [1,75], a called value
outside [1,75] never matches any cell, so adding such a value (cons) or
removing all such values (filter to the in-range ones) leaves `computeMarks`
unchanged. -/
theorem computeMarks_out_of_range (card : Card) (called : List Int) (v : Int)
    (hcard : ∀ cell ∈ card.cells, ∀ n : Int, cell.number = some n → 1 ≤ n ∧ n ≤ 75)
    (hv : v < 1 ∨ 75 < v) :
    computeMarks card (v :: called) = computeMarks card called ∧
    computeMarks card (called.filter (fun n => decide (1 ≤ n) && decide (n ≤ 75))) =
      computeMarks card called := by
  constructor
  · rw [computeMarks, computeMarks]
    apply List.map_congr_left
    intro cell hc
    by_cases hf : cell.isFree = true
    · simp [hf]
    · cases hn : cell.number
      · simp [hf, hn]
      · rename_i n
        have hrange := hcard cell hc n hn
        have hne : n ≠ v := by omega
        simp [hf, hn, List.contains_cons, hne]
  · rw [computeMarks, computeMarks]
    apply List.map_congr_left
    intro cell hc
    by_cases hf : cell.isFree = true
    · simp [hf]
    · cases hn : cell.number
      · simp [hf, hn]
      · rename_i n
        have hrange := hcard cell hc n hn
        have hcont : ∀ L : List Int, L.contains n = true ↔ n ∈ L :=
          fun _ => List.elem_iff
        simp only [hf, hn, Bool.false_eq_true, if_false]
        rw [Bool.eq_iff_iff, hcont, hcont, List.mem_filter]
        simp [hrange.1, hrange.2]

/-- C8 witness: the hypotheses hold for the concrete empty card (whose cells
carry no numbers at all) and the out-of-range value 76, and the theorem
applies there. -/
theorem computeMarks_out_of_range_witness :
    (∀ cell ∈ sampleCard.cells, ∀ n : Int, cell.number = some n → 1 ≤ n ∧ n ≤ 75) ∧
    ((76 : Int) < 1 ∨ 75 < (76 : Int)) ∧
    (computeMarks sampleCard (76 :: [5]) = computeMarks sampleCard [5] ∧
      computeMarks sampleCard
          (([5] : List Int).filter (fun n => decide (1 ≤ n) && decide (n ≤ 75))) =
        computeMarks sampleCard [5]) := by
  have hcard : ∀ cell ∈ sampleCard.cells, ∀ n : Int,
      cell.number = some n → 1 ≤ n ∧ n ≤ 75 := by
    intro cell hc n hn
    simp only [sampleCard, createEmptyCard, List.mem_map] at hc
    obtain ⟨i, hi, rfl⟩ := hc
    simp [createCell] at hn
  exact ⟨hcard, by decide,
    computeMarks_out_of_range sampleCard [5] 76 hcard (by decide)⟩

lemma getD_of_blackout (marks : List Bool) (hlen : marks.length = 25)
    (hb : isBlackout marks = true) : ∀ i, i < 25 → marks.getD i false = true := by
  intro i hi
  have h := List.all_eq_true.mp hb
  have hi' : i < marks.length := by omega
  rw [List.getD_eq_getElem _ _ hi']
  exact h _ (List.getElem_mem hi')

/-- C10: blackout is the strongest condition: on a length-25 mark vector,
`isBlackout` implies `isBoxComplete`, `isXComplete`, and that
`getCompletedLines` contains all 12 line identifiers. -/
theorem isBlackout_strongest (marks : List Bool) (hlen : marks.length = 25)
    (hb : isBlackout marks = true) :
    isBoxComplete marks = true ∧ isXComplete marks = true ∧
    ∀ l : LineId, l ∈ getCompletedLines marks := by
  have key := getD_of_blackout marks hlen hb
  have hall : ∀ L : List Nat, (∀ i ∈ L, i < 25) →
      L.all (fun i => marks.getD i false) = true := by
    intro L hL
    rw [List.all_eq_true]
    intro i hi
    exact key i (hL i hi)
  refine ⟨hall _ (by decide), ?_, ?_⟩
  · rw [isXComplete, Bool.and_eq_true, isLineComplete, isLineComplete]
    exact ⟨hall _ (by decide), hall _ (by decide)⟩
  · intro l
    rw [mem_getCompletedLines, isLineComplete]
    apply hall
    cases l <;> decide

/-- C10 witness: the all-true 25-entry mark vector is a blackout, and the
theorem applies there. -/
theorem isBlackout_strongest_witness :
    (List.replicate 25 true).length = 25 ∧
    isBlackout (List.replicate 25 true) = true ∧
    (isBoxComplete (List.replicate 25 true) = true ∧
      isXComplete (List.replicate 25 true) = true ∧
      ∀ l : LineId, l ∈ getCompletedLines (List.replicate 25 true)) :=
  ⟨by decide, by decide,
    isBlackout_strongest (List.replicate 25 true) (by decide) (by decide)⟩

end Bingo
